import Mathlib

/-!
Verification of the TypeScript binding in
`tokenizers-huggingface-typescript` against its specification.

The development shallowly embeds the files under `src/`:

* `src/foreign-functions.ts` — the cross-boundary call helpers
  (`throwErrors`, `createNewArgs`, `methodArgsResult`,
  `methodArgsNoResult`), the `dylib` symbol table and the
  `ForeignInstance` base class (`getInstancePtr`, `_dispose`).
* `src/tokenizer.ts`, `src/normalizers.ts`, `src/pre-tokenizers.ts`,
  `src/pipeline-string.ts` — the wrapper classes.

Native handles are modelled as `Nat` (the JS side stores them as
`bigint`); the native library behind the boundary is an explicit
parameter (a function from the marshalled input to a status and an
output buffer), and every boundary crossing is logged in a `Call`
list so that "raised locally with no boundary crossing" is a
statement about the log.  Protobuf buffers are opaque byte lists and
the generated message parsers — whose sources are not part of the
repository snapshot — are passed as function parameters, exactly as
the TypeScript helpers receive `inputParser` / `resultParser`.
-/

/-- A marshalled protobuf buffer, as raw bytes. -/
abbrev Buf := List Nat

/-- One crossing of the foreign-function boundary: the symbol invoked
and, for instance methods and instance frees, the handle passed. -/
structure Call where
  sym : String
  handle : Option Nat
deriving DecidableEq, Repr

/-- The JavaScript exception classes of `src/errors.ts`, plus the
built-in classes the binding can raise (`Error`, `RangeError`,
`TypeError`).  Each constructor carries the message string. -/
inductive JSError where
  | objectDisposed (msg : String)
  | invalidProtocolBuffer (msg : String)
  | invalidPointer (msg : String)
  | invalidArguments (msg : String)
  | emptyParams (msg : String)
  | normalizationError (msg : String)
  | preTokenizationError (msg : String)
  | tokenizerBuildError (msg : String)
  | tokenizerTrainingError (msg : String)
  | tokenizerSaveError (msg : String)
  | tokenizerLoadFileError (msg : String)
  | tokenizerEncodingError (msg : String)
  | tokenizerDecodingError (msg : String)
  | rangeError (msg : String)
  | typeError (msg : String)
  | genericError (msg : String)
deriving DecidableEq, Repr

/-- `true` exactly on the `ObjectDisposed` class. -/
def JSError.isObjectDisposed : JSError → Bool
  | .objectDisposed _ => true
  | _ => false

/-- `true` exactly on the `PreTokenizationError` class. -/
def JSError.isPreTokenizationError : JSError → Bool
  | .preTokenizationError _ => true
  | _ => false

/-- Modelled from the spec: the `CallStatus` enum of the generated
module `src/generated/error.ts`, which is not part of the repository
snapshot.  The spec's §7 taxonomy lists transport errors and the
detail-carrying stage/pipeline errors; `throwErrors` in
`src/foreign-functions.ts` reads the detail payload only for
positive statuses, so detail-carrying members are given the positive
codes and the detail-free transport members the negative ones.
Status `0` denotes success and is not a member. -/
inductive CallStatus where
  | DECODE_ERROR
  | INVALID_ARGUMENTS
  | UNKNOWN_ENUM_VALUE
  | EMPTY_PARAMS
  | INVALID_ARGUMENTS_DETAILS
  | INVALID_POINTER_DETAILS
  | NORMALIZATION_ERROR_DETAILS
  | PRE_TOKENIZATION_ERROR_DETAILS
  | TOKENIZER_BUILD_ERROR_DETAILS
  | TOKENIZER_TRAINING_ERROR_DETAILS
  | TOKENIZER_SAVE_ERROR_DETAILS
  | TOKENIZER_LOAD_FILE_ERROR_DETAILS
  | TOKENIZER_ENCODING_ERROR_DETAILS
  | TOKENIZER_DECODING_ERROR_DETAILS
deriving DecidableEq, Repr

/-- Modelled from the spec: `callStatusFromJSON` of the missing
generated module `src/generated/error.ts`, as a partial map from
numeric status codes to enum members (`none` for codes outside the
enumeration, so that unknown codes fall through the `switch` of
`throwErrors`, as the spec's §7 requires). -/
def callStatusFromJSON : Int → Option CallStatus
  | -1 => some .DECODE_ERROR
  | -2 => some .INVALID_ARGUMENTS
  | -3 => some .UNKNOWN_ENUM_VALUE
  | -4 => some .EMPTY_PARAMS
  | 1 => some .INVALID_ARGUMENTS_DETAILS
  | 2 => some .INVALID_POINTER_DETAILS
  | 3 => some .NORMALIZATION_ERROR_DETAILS
  | 4 => some .PRE_TOKENIZATION_ERROR_DETAILS
  | 5 => some .TOKENIZER_BUILD_ERROR_DETAILS
  | 6 => some .TOKENIZER_TRAINING_ERROR_DETAILS
  | 7 => some .TOKENIZER_SAVE_ERROR_DETAILS
  | 8 => some .TOKENIZER_LOAD_FILE_ERROR_DETAILS
  | 9 => some .TOKENIZER_ENCODING_ERROR_DETAILS
  | 10 => some .TOKENIZER_DECODING_ERROR_DETAILS
  | _ => none

/-- `throwErrors` of `src/foreign-functions.ts` (lines 189–238).  In
the source it is a `void` function that throws on every path; here it
returns the `JSError` that is thrown.  `decodeDetails` stands for
`e.Error.decode(buf).details`; the source reads it only when the
status is positive. -/
def throwErrors (status : Int) (buf : Buf) (decodeDetails : Buf → String) : JSError :=
  let details := if status > 0 then decodeDetails buf else ""
  match callStatusFromJSON status with
  | some .DECODE_ERROR => .invalidProtocolBuffer "DECODE_ERROR. InvalidProtocolBuffer"
  | some .INVALID_ARGUMENTS_DETAILS =>
      .invalidArguments ("INVALID_ARGUMENTS_DETAILS: " ++ details)
  | some .INVALID_ARGUMENTS => .invalidArguments ""
  | some .UNKNOWN_ENUM_VALUE => .rangeError "Unknown enum value"
  | some .EMPTY_PARAMS => .emptyParams "EMPTY_PARAMS. A required field is not present"
  | some .INVALID_POINTER_DETAILS => .invalidPointer details
  | some .NORMALIZATION_ERROR_DETAILS => .normalizationError details
  | some .PRE_TOKENIZATION_ERROR_DETAILS => .preTokenizationError details
  | some .TOKENIZER_BUILD_ERROR_DETAILS => .tokenizerBuildError details
  | some .TOKENIZER_TRAINING_ERROR_DETAILS => .tokenizerTrainingError details
  | some .TOKENIZER_SAVE_ERROR_DETAILS => .tokenizerSaveError details
  | some .TOKENIZER_LOAD_FILE_ERROR_DETAILS => .tokenizerLoadFileError details
  | some .TOKENIZER_ENCODING_ERROR_DETAILS => .tokenizerEncodingError details
  | some .TOKENIZER_DECODING_ERROR_DETAILS => .tokenizerDecodingError details
  | none =>
      if status > 0 then
        .genericError
          ("Unknown error occurred, code: " ++ toString status ++ ", details: " ++ details)
      else
        .genericError ("Unknown error occurred, code: " ++ toString status)

/-- The call `throwErrors(status, outBuf)` as it appears inside the
helpers: it never returns normally, so as a step in the exception
monad it is always `Except.error`. -/
def throwErrorsE (status : Int) (buf : Buf) (decodeDetails : Buf → String) :
    Except JSError Unit :=
  Except.error (throwErrors status buf decodeDetails)

/-- The symbol table passed to `dlopen` in `src/foreign-functions.ts`
(lines 67–187; the Deno and Bun tables declare the same names). -/
def dylibSymbols : List String :=
  ["free_buffer",
   "new_pipeline_string", "get_splits", "free_pipeline_string",
   "new_normalizer_wrapper", "normalize", "free_normalizer_wrapper",
   "new_pre_tokenizer_wrapper", "pre_tokenize", "free_pre_tokenizer_wrapper",
   "tokenizer_from_file", "tokenizer_from_train", "encode", "decode",
   "free_tokenizer_wrapper"]

/-- Property access `dylib.name` on the loaded library object:
`some name` when the symbol table exports the name, `none`
(JavaScript `undefined`) otherwise. -/
def dylibLookup (name : String) : Option String :=
  if name ∈ dylibSymbols then some name else none

/-- What a native function returns across the boundary: an `i32`
status and the out buffer published through `outPtr`/`outLen`. -/
structure NativeReply where
  status : Int
  outBuf : Buf

/-- What a native constructor returns: additionally the new instance
handle published through `instancePtr`. -/
structure CreateReply where
  status : Int
  outBuf : Buf
  instancePtr : Nat

/-- `Number(instance.instancePtr)` — conversion of an unsigned 64-bit
`bigint` handle to a JavaScript IEEE-754 double, rounding to the
nearest representable integer with ties to even.  Exact for values
below `2 ^ 53`.  `jsRoundShift` computes the number of significand
bits to drop (`0` below `2 ^ 53`, at most `11` for a 64-bit value). -/
def jsRoundShift (n : Nat) : Nat :=
  (((List.range 12).find? fun k => n / 2 ^ k < 2 ^ 53).getD 11)

/-- See the comment above `jsRoundShift`: the rounding itself. -/
def jsNumberOfNat (n : Nat) : Nat :=
  if n < 2 ^ 53 then n
  else
    let k := jsRoundShift n
    let q := n / 2 ^ k
    let r := n % 2 ^ k
    let half := 2 ^ (k - 1)
    let q2 := if half < r ∨ (r = half ∧ q % 2 = 1) then q + 1 else q
    q2 * 2 ^ k

namespace ForeignInstance

/-- `ForeignInstance.getInstancePtr` (`src/foreign-functions.ts`
lines 358–360): `Number(instance.instancePtr)`. -/
def getInstancePtr (instancePtr : Nat) : Nat := jsNumberOfNat instancePtr

end ForeignInstance

/-- The outcome of `ForeignInstance._dispose` on one instance: the
raised exception if any, the handle stored afterwards, and the
boundary calls made. -/
structure DisposeOutcome where
  err : Option JSError
  newPtr : Nat
  calls : List Call
deriving DecidableEq, Repr

/-- `ForeignInstance._dispose` (`src/foreign-functions.ts` lines
362–368) for an instance whose `freFunc()` returns the property
`dylib.freName`: a zero handle returns at once; otherwise the free
function is looked up and invoked and the handle is zeroed.  When the
name is not exported (JavaScript `undefined`), invoking it raises a
`TypeError` and the handle is left unchanged. -/
def foreignDispose (freName : String) (instancePtr : Nat) : DisposeOutcome :=
  if instancePtr = 0 then ⟨none, 0, []⟩
  else
    match dylibLookup freName with
    | none => ⟨some (.typeError ("dylib." ++ freName ++ " is not a function")), instancePtr, []⟩
    | some s => ⟨none, 0, [⟨s, some instancePtr⟩]⟩

/-- The free-function name `Tokenizer.freFunc` reads
(`src/tokenizer.ts` line 228): `dylib.free_tokenizer`. -/
def tokenizerFreeName : String := "free_tokenizer"

/-- The free-function name `Normalizer.freFunc` reads
(`src/normalizers.ts` line 63). -/
def normalizerFreeName : String := "free_normalizer_wrapper"

/-- The free-function name `PreTokenizer.freFunc` reads
(`src/pre-tokenizers.ts` line 79). -/
def preTokenizerFreeName : String := "free_pre_tokenizer_wrapper"

/-- The free-function name `PipelineString.freFunc` reads
(`src/pipeline-string.ts` line 57). -/
def pipelineStringFreeName : String := "free_pipeline_string"

/-- `createNewArgs` (`src/foreign-functions.ts` lines 247–276).
`func` is the native constructor symbol's behaviour on the marshalled
input.  On a nonzero status the out buffer is read (and freed) only
for positive statuses and `throwErrors` raises; on status `0` the new
instance handle is returned. -/
def createNewArgs {I : Type} (name : String) (func : Buf → CreateReply)
    (input : I) (inputEncode : I → Buf) (decodeDetails : Buf → String) :
    Except JSError Nat × List Call :=
  let buf := inputEncode input
  let r := func buf
  if r.status ≠ 0 then
    let outBuf := if r.status > 0 then r.outBuf else []
    (Except.error (throwErrors r.status outBuf decodeDetails),
     ⟨name, none⟩ :: if r.status > 0 then [⟨"free_buffer", none⟩] else [])
  else
    (Except.ok r.instancePtr, [⟨name, none⟩])

/-- `methodArgsResult` (`src/foreign-functions.ts` lines 285–311).
The source reads and frees the out buffer whenever `status >= 0`,
then calls `throwErrors(status, outBuf)` with **no** status guard, so
the trailing `return resultParser.decode(outBuf)` is unreachable: the
`do` block below faithfully renders that sequencing. -/
def methodArgsResult {I R : Type} (name : String) (func : Nat → Buf → NativeReply)
    (instancePtr : Nat) (input : I) (inputEncode : I → Buf)
    (decodeDetails : Buf → String) (resultDecode : Buf → R) :
    Except JSError R × List Call :=
  let buf := inputEncode input
  let r := func instancePtr buf
  let outBuf := if r.status ≥ 0 then r.outBuf else []
  (do
    throwErrorsE r.status outBuf decodeDetails
    return resultDecode outBuf,
   ⟨name, some instancePtr⟩ :: if r.status ≥ 0 then [⟨"free_buffer", none⟩] else [])

/-- `methodArgsNoResult` (`src/foreign-functions.ts` lines 313–341):
like `createNewArgs`, the call to `throwErrors` is guarded by
`status != 0`, so a zero status returns normally. -/
def methodArgsNoResult {I : Type} (name : String) (func : Nat → Buf → NativeReply)
    (instancePtr : Nat) (input : I) (inputEncode : I → Buf)
    (decodeDetails : Buf → String) :
    Except JSError Unit × List Call :=
  let buf := inputEncode input
  let r := func instancePtr buf
  if r.status ≠ 0 then
    let outBuf := if r.status > 0 then r.outBuf else []
    (Except.error (throwErrors r.status outBuf decodeDetails),
     ⟨name, some instancePtr⟩ :: if r.status > 0 then [⟨"free_buffer", none⟩] else [])
  else
    (Except.ok (), [⟨name, some instancePtr⟩])

/-- The message of `src/generated/pipeline_string/normalize.ts`
carrying the pipeline-string handle as a JS number. -/
structure NormalizeParams where
  pipelineString : Nat
deriving DecidableEq, Repr

/-- The message of `src/generated/pipeline_string/pre_tokenize.ts`. -/
structure PreTokenizeParams where
  pipelineString : Nat
deriving DecidableEq, Repr

/-- `Normalizer.normalize` (`src/normalizers.ts` lines 49–61): a zero
handle raises `ObjectDisposed` before anything is marshalled;
otherwise the `normalize` symbol is invoked through
`methodArgsNoResult`. -/
def Normalizer.normalize (selfPtr : Nat) (pipelineStringPtr : Nat)
    (func : Nat → Buf → NativeReply) (inputEncode : NormalizeParams → Buf)
    (decodeDetails : Buf → String) : Except JSError Unit × List Call :=
  if selfPtr = 0 then (Except.error (.objectDisposed ""), [])
  else
    methodArgsNoResult "normalize" func selfPtr
      ⟨ForeignInstance.getInstancePtr pipelineStringPtr⟩ inputEncode decodeDetails

/-- `PreTokenizer.preTokenize` (`src/pre-tokenizers.ts` lines 65–77),
with the same disposed guard as `Normalizer.normalize`. -/
def PreTokenizer.preTokenize (selfPtr : Nat) (pipelineStringPtr : Nat)
    (func : Nat → Buf → NativeReply) (inputEncode : PreTokenizeParams → Buf)
    (decodeDetails : Buf → String) : Except JSError Unit × List Call :=
  if selfPtr = 0 then (Except.error (.objectDisposed ""), [])
  else
    methodArgsNoResult "pre_tokenize" func selfPtr
      ⟨ForeignInstance.getInstancePtr pipelineStringPtr⟩ inputEncode decodeDetails

/-- Modelled from the spec: offset referential (original vs
normalized), from the missing generated module
`src/generated/pipeline_string/pipeline_string_public.ts`. -/
inductive OffsetReferential where
  | ORIGINAL
  | NORMALIZED
deriving DecidableEq, Repr

/-- Modelled from the spec: offset unit (byte vs char), from the same
missing generated module. -/
inductive OffsetType where
  | BYTE
  | CHAR
deriving DecidableEq, Repr

/-- The `Offsets` message (`src/generated/tokenizer/encoding.ts`,
not in the snapshot): a half-open `[start, stop)` range (the source
field `end` is a Lean keyword). -/
structure Offsets where
  start : Nat
  stop : Nat
deriving DecidableEq, Repr

/-- The `SplitParams` message of
`src/generated/pipeline_string/pipeline_string.ts`. -/
structure SplitParams where
  offsetReferential : OffsetReferential
  offsetType : OffsetType
  includeOffsets : Bool
deriving DecidableEq, Repr

/-- The `SplitResult` message: parallel token and offset lists. -/
structure SplitResult where
  tokens : List String
  offsets : List Offsets
deriving DecidableEq, Repr

/-- The result-assembly loop of `PipelineString.getSplits`
(`src/pipeline-string.ts` lines 43–53): pair each token with its
offsets when requested. -/
def buildSplits (r : SplitResult) (includeOffsets : Bool) :
    List (String × Option (Nat × Nat)) :=
  (List.range r.tokens.length).map fun i =>
    (r.tokens.getD i "",
     if includeOffsets then
       some ((r.offsets.getD i ⟨0, 0⟩).start, (r.offsets.getD i ⟨0, 0⟩).stop)
     else none)

/-- `PipelineString.getSplits` (`src/pipeline-string.ts` lines
27–55).  Unlike the other instance methods, the source has **no**
`instancePtr === 0n` guard: the stored handle, zero or not, goes
straight into `methodArgsResult`. -/
def PipelineString.getSplits (selfPtr : Nat)
    (offsetReferential : OffsetReferential) (offsetType : OffsetType)
    (includeOffsets : Bool) (func : Nat → Buf → NativeReply)
    (inputEncode : SplitParams → Buf) (decodeDetails : Buf → String)
    (resultDecode : Buf → SplitResult) :
    Except JSError (List (String × Option (Nat × Nat))) × List Call :=
  let r := methodArgsResult "get_splits" func selfPtr
    ⟨offsetReferential, offsetType, includeOffsets⟩ inputEncode decodeDetails resultDecode
  (r.1.map (fun res => buildSplits res includeOffsets), r.2)

/-- The `DecodeParams` message of
`src/generated/tokenizer/tokenizer.ts`. -/
structure DecodeParams where
  ids : List Nat
  skipSpecialTokens : Bool
deriving DecidableEq, Repr

/-- The `DecodeResult` message. -/
structure DecodeResult where
  decoded : String
deriving DecidableEq, Repr

/-- A single `Encoding` of `src/generated/tokenizer/encoding.ts`
(not in the snapshot); only the fields the claims use are modelled,
per the spec's §3 data model. -/
structure Encoding where
  ids : List Nat
  tokens : List String
deriving DecidableEq, Repr

/-- The `EncodeParams` message. -/
structure EncodeParams where
  input : String
  addSpecialTokens : Bool
  input2 : Option String
  includeTypeIds : Bool
  includeTokens : Bool
  includeWords : Bool
  includeOffsets : Bool
  includeSpecialTokensMask : Bool
  includeAttentionMask : Bool
  includeOverflowing : Bool
deriving DecidableEq, Repr

/-- The `EncodeResult` message. -/
structure EncodeResult where
  encodings : List Encoding
deriving DecidableEq, Repr

/-- `Tokenizer.decode` (`src/tokenizer.ts` lines 153–167): disposed
guard, then `methodArgsResult` on the `decode` symbol, projecting the
`decoded` field of the result. -/
def Tokenizer.decode (selfPtr : Nat) (ids : List Nat) (skipSpecialTokens : Bool)
    (func : Nat → Buf → NativeReply) (inputEncode : DecodeParams → Buf)
    (decodeDetails : Buf → String) (resultDecode : Buf → DecodeResult) :
    Except JSError String × List Call :=
  if selfPtr = 0 then (Except.error (.objectDisposed ""), [])
  else
    let r := methodArgsResult "decode" func selfPtr ⟨ids, skipSpecialTokens⟩
      inputEncode decodeDetails resultDecode
    (r.1.map (·.decoded), r.2)

/-- `Tokenizer.encode` (`src/tokenizer.ts` lines 189–225): disposed
guard, then `methodArgsResult` on the `encode` symbol, projecting the
`encodings` field of the result. -/
def Tokenizer.encode (selfPtr : Nat) (input : String) (addSpecialTokens : Bool)
    (input2 : Option String) (includeTypeIds includeTokens includeWords : Bool)
    (includeOffsets includeSpecialTokensMask : Bool)
    (includeAttentionMask includeOverflowing : Bool)
    (func : Nat → Buf → NativeReply) (inputEncode : EncodeParams → Buf)
    (decodeDetails : Buf → String) (resultDecode : Buf → EncodeResult) :
    Except JSError (List Encoding) × List Call :=
  if selfPtr = 0 then (Except.error (.objectDisposed ""), [])
  else
    let r := methodArgsResult "encode" func selfPtr
      ⟨input, addSpecialTokens, input2, includeTypeIds, includeTokens, includeWords,
       includeOffsets, includeSpecialTokensMask, includeAttentionMask, includeOverflowing⟩
      inputEncode decodeDetails resultDecode
    (r.1.map (·.encodings), r.2)

/-- The address-collection loop of the two `Sequence` constructors
(`src/normalizers.ts` lines 189–200, `src/pre-tokenizers.ts` lines
205–216), run **before** `super(...)`: convert each element's handle
with `getInstancePtr` and raise `ObjectDisposed` at the first zero
address.  `label` is the class name used in the message. -/
def sequenceAddresses (label : String) (ptrs : List Nat) : Except JSError (List Nat) :=
  let rec go : Nat → List Nat → Except JSError (List Nat)
    | _, [] => Except.ok []
    | i, p :: ps =>
      let address := ForeignInstance.getInstancePtr p
      if address = 0 then
        Except.error (.objectDisposed
          ("The " ++ label ++ " at index [" ++ toString i ++ "] is disposed"))
      else
        (go (i + 1) ps).map (fun rest => address :: rest)
  go 0 ptrs

/-- The wrapper message a `Sequence` sends to its native constructor
(the `Sequence` case of `src/generated/utils.ts`). -/
structure SequenceMsg where
  addresses : List Nat
deriving DecidableEq, Repr

/-- A `Sequence` constructor (`src/normalizers.ts` lines 183–206 and
`src/pre-tokenizers.ts` lines 199–222 are identical up to the class
names): collect the children's addresses, then create the native
wrapper via `createNewArgs` on `createName`.  A failure in either
step raises before the object exists; no free function is invoked on
any child. -/
def sequenceConstruct (label createName : String) (ptrs : List Nat)
    (func : Buf → CreateReply) (inputEncode : SequenceMsg → Buf)
    (decodeDetails : Buf → String) : Except JSError Nat × List Call :=
  match sequenceAddresses label ptrs with
  | .error e => (Except.error e, [])
  | .ok addresses => createNewArgs createName func ⟨addresses⟩ inputEncode decodeDetails

/-- An ownership tree of wrapper instances of one pipeline-stage
class: a `Sequence` node owns its children (which may themselves be
sequences), a leaf is any non-composite instance.  Each node stores
the handle currently held by the JS object. -/
inductive PipeTree where
  | leaf (ptr : Nat)
  | seq (ptr : Nat) (children : List PipeTree)

mutual

/-- `Sequence._dispose` / `ForeignInstance._dispose` over an
ownership tree (`src/normalizers.ts` lines 207–212,
`src/pre-tokenizers.ts` lines 223–228): a sequence first disposes
every child in order (`forEach`), then runs the base `_dispose` on
its own handle; an exception from a child propagates and stops the
teardown.  Returns the raised exception if any, the tree of handles
afterwards, and the boundary calls made. -/
def PipeTree.dispose (freName : String) :
    PipeTree → Option JSError × PipeTree × List Call
  | .leaf p =>
    let o := foreignDispose freName p
    (o.err, .leaf o.newPtr, o.calls)
  | .seq p cs =>
    match PipeTree.disposeList freName cs with
    | (some e, cs2, calls) => (some e, .seq p cs2, calls)
    | (none, cs2, calls) =>
      let o := foreignDispose freName p
      (o.err, .seq o.newPtr cs2, calls ++ o.calls)

/-- The `forEach` over the children of a sequence. -/
def PipeTree.disposeList (freName : String) :
    List PipeTree → Option JSError × List PipeTree × List Call
  | [] => (none, [], [])
  | t :: ts =>
    match PipeTree.dispose freName t with
    | (some e, t2, calls) => (some e, t2 :: ts, calls)
    | (none, t2, calls) =>
      match PipeTree.disposeList freName ts with
      | (e2, ts2, calls2) => (e2, t2 :: ts2, calls ++ calls2)

end

mutual

/-- The handles a disposal of the tree must free: children first (in
order), then the node's own handle when it is nonzero. -/
def PipeTree.livePtrs : PipeTree → List Nat
  | .leaf p => if p = 0 then [] else [p]
  | .seq p cs => PipeTree.livePtrsList cs ++ if p = 0 then [] else [p]

/-- `livePtrs` over a list of children. -/
def PipeTree.livePtrsList : List PipeTree → List Nat
  | [] => []
  | t :: ts => PipeTree.livePtrs t ++ PipeTree.livePtrsList ts

end

mutual

/-- The tree with every handle zeroed. -/
def PipeTree.zeroed : PipeTree → PipeTree
  | .leaf _ => .leaf 0
  | .seq _ cs => .seq 0 (PipeTree.zeroedList cs)

/-- `zeroed` over a list of children. -/
def PipeTree.zeroedList : List PipeTree → List PipeTree
  | [] => []
  | t :: ts => PipeTree.zeroed t :: PipeTree.zeroedList ts

end

/-- Modelled from the spec: the `PrependScheme` enum of the missing
generated module `src/generated/pre_tokenizers/metaspace.ts` (§4.2:
replacement added at the very start, at the start of each word, or
never). -/
inductive PrependScheme where
  | ALWAYS
  | NEVER
  | FIRST
deriving DecidableEq, Repr

/-- The `Metaspace` message of the same generated module. -/
structure MetaspaceMsg where
  replacementChar : String
  prependScheme : PrependScheme
  split : Bool
deriving DecidableEq, Repr

/-- The pre-`super` body of the `Metaspace` constructor
(`src/pre-tokenizers.ts` lines 133–148): an empty replacement throws
a plain `Error`; otherwise `replacementChar[0]` — the first character
— replaces the argument in the message. -/
def metaspaceMsg (replacementChar : String) (prependScheme : PrependScheme)
    (split : Bool) : Except JSError MetaspaceMsg :=
  if replacementChar.length = 0 then
    Except.error (.genericError "replacementChar must have a length of 1")
  else
    Except.ok ⟨replacementChar.take 1, prependScheme, split⟩

/-- The `Delimiter` message of
`src/generated/pre_tokenizers/utils.ts` (field `char`). -/
structure DelimiterMsg where
  char : String
deriving DecidableEq, Repr

/-- The pre-`super` body of the `Delimiter` constructor
(`src/pre-tokenizers.ts` lines 183–192): an empty delimiter throws a
plain `Error`; otherwise the first character is sent. -/
def delimiterMsg (delimiterChar : String) : Except JSError DelimiterMsg :=
  if delimiterChar.length = 0 then
    Except.error (.genericError "delimiterChar must have a length of 1")
  else
    Except.ok ⟨delimiterChar.take 1⟩

/-- Modelled from the spec: the delimiter-retention behaviours of the
missing generated module
`src/generated/pre_tokenizers/split_delimiter_behavior.ts` (§4.2). -/
inductive SplitDelimiterBehavior where
  | REMOVED
  | ISOLATED
  | MERGED_WITH_PREVIOUS
  | MERGED_WITH_NEXT
  | CONTIGUOUS
deriving DecidableEq, Repr

/-- The oneof pattern field of the generated `Split` message: either
the literal-string field or the regex field is set. -/
inductive SplitPatternField where
  | stringSplit (pattern : String)
  | regexSplit (pattern : String)
deriving DecidableEq, Repr

/-- The `Split` message of `src/generated/pre_tokenizers/utils.ts`. -/
structure SplitMsg where
  pattern : SplitPatternField
  behavior : SplitDelimiterBehavior
  invert : Bool
deriving DecidableEq, Repr

/-- The message built by the `Split` pre-tokenizer constructor
(`src/pre-tokenizers.ts` lines 242–258): the source's conditional is
`isRegex ? {stringSplit: pattern, ...} : {regexSplit: pattern, ...}`,
so `isRegex = true` fills the literal-string field and
`isRegex = false` fills the regex field. -/
def splitMsg (pattern : String) (behavior : SplitDelimiterBehavior)
    (invert : Bool) (isRegex : Bool) : SplitMsg :=
  if isRegex then ⟨.stringSplit pattern, behavior, invert⟩
  else ⟨.regexSplit pattern, behavior, invert⟩

/-- The oneof pattern field of the generated `Replace` message. -/
inductive ReplacePatternField where
  | stringReplacement (pattern : String)
  | regexReplacement (pattern : String)
deriving DecidableEq, Repr

/-- The `Replace` message of
`src/generated/normalizers/replace.ts`. -/
structure ReplaceMsg where
  pattern : ReplacePatternField
  content : String
deriving DecidableEq, Repr

/-- The message built by the `Replace` normalizer constructor
(`src/normalizers.ts` lines 249–262): `isRegex = true` fills
`regexReplacement`, `isRegex = false` fills `stringReplacement`. -/
def replaceMsg (pattern content : String) (isRegex : Bool) : ReplaceMsg :=
  if isRegex then ⟨.regexReplacement pattern, content⟩
  else ⟨.stringReplacement pattern, content⟩

/-- Whether a wrapper outcome is an `ObjectDisposed` exception. -/
def exceptIsObjectDisposed {α : Type} : Except JSError α → Bool
  | .error e => e.isObjectDisposed
  | .ok _ => false

/-- Whether a wrapper outcome is a normal return. -/
def exceptIsOk {α : Type} : Except JSError α → Bool
  | .ok _ => true
  | .error _ => false

/-- Whether a wrapper outcome is a `PreTokenizationError` exception. -/
def exceptIsPreTokenizationError {α : Type} : Except JSError α → Bool
  | .error e => e.isPreTokenizationError
  | .ok _ => false

/-- A concrete native constructor behaviour reporting success with
instance handle 7, for evaluating the embedding on closed inputs. -/
def testCreateOk : Buf → CreateReply := fun _ => ⟨0, [], 7⟩

/-- A concrete native method behaviour reporting success (status 0)
with a nonempty result buffer. -/
def testReplyOk : Nat → Buf → NativeReply := fun _ _ => ⟨0, [1, 2, 3]⟩

/-- A trivial concrete message encoder. -/
def testEncode {I : Type} : I → Buf := fun _ => []

/-- A trivial concrete error-details parser. -/
def testDetails : Buf → String := fun _ => "details"

/-- The complete `Metaspace` constructor (`src/pre-tokenizers.ts`
lines 126–150): the pre-`super` guard, then the native wrapper
creation through `createNewArgs` on `new_pre_tokenizer_wrapper`. -/
def metaspaceConstruct (replacementChar : String) (prependScheme : PrependScheme)
    (split : Bool) (func : Buf → CreateReply) (inputEncode : MetaspaceMsg → Buf)
    (decodeDetails : Buf → String) : Except JSError Nat × List Call :=
  match metaspaceMsg replacementChar prependScheme split with
  | .error e => (Except.error e, [])
  | .ok m => createNewArgs "new_pre_tokenizer_wrapper" func m inputEncode decodeDetails

/-- The complete `Delimiter` constructor (`src/pre-tokenizers.ts`
lines 182–194). -/
def delimiterConstruct (delimiterChar : String) (func : Buf → CreateReply)
    (inputEncode : DelimiterMsg → Buf) (decodeDetails : Buf → String) :
    Except JSError Nat × List Call :=
  match delimiterMsg delimiterChar with
  | .error e => (Except.error e, [])
  | .ok m => createNewArgs "new_pre_tokenizer_wrapper" func m inputEncode decodeDetails

/-- The spec's §8 round trip,
`decode(encode(x).ids, skipSpecialTokens=true)`, composed from the
embedded `Tokenizer.encode` and `Tokenizer.decode`. -/
def tokenizerRoundTrip (selfPtr : Nat) (x : String)
    (func : Nat → Buf → NativeReply) (encodeEnc : EncodeParams → Buf)
    (decodeDetails : Buf → String) (encodeRes : Buf → EncodeResult)
    (decodeEnc : DecodeParams → Buf) (decodeRes : Buf → DecodeResult) :
    Except JSError String :=
  match (Tokenizer.encode selfPtr x true none false false false false false false false
          func encodeEnc decodeDetails encodeRes).1 with
  | .error e => Except.error e
  | .ok encodings =>
      (Tokenizer.decode selfPtr (encodings.headD ⟨[], []⟩).ids true
        func decodeEnc decodeDetails decodeRes).1

theorem methodArgsResult_fst {I R : Type} (name : String) (func : Nat → Buf → NativeReply)
    (instancePtr : Nat) (input : I) (inputEncode : I → Buf)
    (decodeDetails : Buf → String) (resultDecode : Buf → R) :
    (methodArgsResult name func instancePtr input inputEncode decodeDetails resultDecode).1 =
      Except.error (throwErrors (func instancePtr (inputEncode input)).status
        (if (func instancePtr (inputEncode input)).status ≥ 0
          then (func instancePtr (inputEncode input)).outBuf else [])
        decodeDetails) := rfl

theorem throwErrors_isObjectDisposed_false (s : Int) (b : Buf) (d : Buf → String) :
    (throwErrors s b d).isObjectDisposed = false := by
  unfold throwErrors
  cases h : callStatusFromJSON s with
  | none =>
      by_cases hs : s > 0 <;> simp [hs, JSError.isObjectDisposed]
  | some c => cases c <;> simp [JSError.isObjectDisposed]

mutual

theorem PipeTree.dispose_spec (fre : String) (h : dylibLookup fre = some fre) :
    (t : PipeTree) → PipeTree.dispose fre t =
      (none, PipeTree.zeroed t, (PipeTree.livePtrs t).map fun p => ⟨fre, some p⟩)
  | .leaf p => by
      by_cases hp : p = 0 <;>
        simp [PipeTree.dispose, foreignDispose, hp, h, PipeTree.zeroed, PipeTree.livePtrs]
  | .seq p cs => by
      have ih := PipeTree.disposeList_spec fre h cs
      by_cases hp : p = 0 <;>
        simp [PipeTree.dispose, ih, foreignDispose, hp, h, PipeTree.zeroed, PipeTree.livePtrs]

theorem PipeTree.disposeList_spec (fre : String) (h : dylibLookup fre = some fre) :
    (ts : List PipeTree) → PipeTree.disposeList fre ts =
      (none, PipeTree.zeroedList ts, (PipeTree.livePtrsList ts).map fun p => ⟨fre, some p⟩)
  | [] => by simp [PipeTree.disposeList, PipeTree.zeroedList, PipeTree.livePtrsList]
  | t :: ts => by
      have ih1 := PipeTree.dispose_spec fre h t
      have ih2 := PipeTree.disposeList_spec fre h ts
      simp [PipeTree.disposeList, ih1, ih2, PipeTree.zeroedList, PipeTree.livePtrsList]

end

mutual

theorem PipeTree.dispose_zeroed (fre : String) :
    (t : PipeTree) → PipeTree.dispose fre (PipeTree.zeroed t) =
      (none, PipeTree.zeroed t, [])
  | .leaf p => by simp [PipeTree.zeroed, PipeTree.dispose, foreignDispose]
  | .seq p cs => by
      have ih := PipeTree.disposeList_zeroed fre cs
      simp [PipeTree.zeroed, PipeTree.dispose, ih, foreignDispose]

theorem PipeTree.disposeList_zeroed (fre : String) :
    (ts : List PipeTree) → PipeTree.disposeList fre (PipeTree.zeroedList ts) =
      (none, PipeTree.zeroedList ts, [])
  | [] => by simp [PipeTree.zeroedList, PipeTree.disposeList]
  | t :: ts => by
      have ih1 := PipeTree.dispose_zeroed fre t
      have ih2 := PipeTree.disposeList_zeroed fre ts
      simp [PipeTree.zeroedList, PipeTree.disposeList, ih1, ih2]

end

/-- C1: on a result-returning foreign call (`Tokenizer.decode` here)
whose native function reports success (status 0), the wrapper is
claimed to decode and return the result with no error.  Evaluating
the embedded code at that input shows the opposite: `throwErrors` is
invoked unconditionally in `methodArgsResult`, so the call raises
`Error "Unknown error occurred, code: 0"` and the decoded result
(the dead `return resultParser.decode(outBuf)`) is never reached. -/
theorem claim_C1_success_status_still_raises :
    Tokenizer.decode 1 [0] true testReplyOk testEncode testDetails (fun _ => ⟨"ok"⟩) =
      (Except.error (.genericError "Unknown error occurred, code: 0"),
       [⟨"decode", some 1⟩, ⟨"free_buffer", none⟩]) := rfl

/-- C3: `Tokenizer.dispose` is claimed to invoke the exported
`free_tokenizer_wrapper` on a nonzero handle and zero the handle.
The embedded code shows `Tokenizer.freFunc` reads
`dylib.free_tokenizer`, a name the symbol table does not export
(while `free_tokenizer_wrapper` is exported), so dispose raises a
`TypeError`, makes no boundary call, and leaves the handle at 42. -/
theorem claim_C3_dispose_reads_missing_symbol :
    dylibLookup tokenizerFreeName = none
  ∧ "free_tokenizer_wrapper" ∈ dylibSymbols
  ∧ foreignDispose tokenizerFreeName 42 =
      ⟨some (.typeError "dylib.free_tokenizer is not a function"), 42, []⟩ := by
  decide

/-- C6: with `isRegex = false` the `Split` pre-tokenizer is claimed
to configure the pattern as a literal string.  Evaluating the
embedded constructors: `Split` fills the `regexSplit` field when
`isRegex = false` and the `stringSplit` field when `isRegex = true`
(the source's branches are swapped, contradicting its own doc
comment), while the `Replace` normalizer is wired as claimed. -/
theorem claim_C6_split_branches_swapped :
    splitMsg "." .REMOVED false false = ⟨.regexSplit ".", .REMOVED, false⟩
  ∧ splitMsg "a+" .REMOVED false true = ⟨.stringSplit "a+", .REMOVED, false⟩
  ∧ replaceMsg "." "x" false = ⟨.stringReplacement ".", "x"⟩
  ∧ replaceMsg "a+" "x" true = ⟨.regexReplacement "a+", "x"⟩ :=
  ⟨rfl, rfl, rfl, rfl⟩

/-- C7: the round trip `decode(encode(x).ids, skipSpecialTokens =
true)` is claimed to reproduce ASCII `x` exactly.  Evaluating the
embedded binding at `x = "hello"` against a native behaviour that
reports success and would decode back to `"hello"`: `encode` already
raises the unconditional `methodArgsResult` error, so the round trip
yields an exception, never `"hello"`. -/
theorem claim_C7_round_trip_never_returns :
    tokenizerRoundTrip 1 "hello" testReplyOk testEncode testDetails
        (fun _ => ⟨[⟨[101], ["hello"]⟩]⟩) testEncode (fun _ => ⟨"hello"⟩) =
      Except.error (.genericError "Unknown error occurred, code: 0")
  ∧ tokenizerRoundTrip 1 "hello" testReplyOk testEncode testDetails
        (fun _ => ⟨[⟨[101], ["hello"]⟩]⟩) testEncode (fun _ => ⟨"hello"⟩) ≠
      Except.ok "hello" := by
  have h : tokenizerRoundTrip 1 "hello" testReplyOk testEncode testDetails
      (fun _ => ⟨[⟨[101], ["hello"]⟩]⟩) testEncode (fun _ => ⟨"hello"⟩) =
      Except.error (.genericError "Unknown error occurred, code: 0") := rfl
  refine ⟨h, ?_⟩
  rw [h]
  intro hc
  exact Except.noConfusion hc

/-- C10 counterexample: the bigint-to-number conversion of
`getInstancePtr` is claimed lossless for every handle including
values at or above `2 ^ 53`; at the handle `2 ^ 53 + 1` the embedded
conversion returns `2 ^ 53`, not the handle. -/
theorem claim_C10_counterexample :
    ForeignInstance.getInstancePtr (2 ^ 53 + 1) ≠ 2 ^ 53 + 1 := by decide

/-- C10 (amended): the conversion is lossless for every handle below
`2 ^ 53`; the claim's "including values at or above `2 ^ 53`" fails
(see the counterexample). -/
theorem claim_C10_lossless_below_2_pow_53 :
    ∀ n : Nat, n < 2 ^ 53 → ForeignInstance.getInstancePtr n = n := by
  intro n h
  unfold ForeignInstance.getInstancePtr jsNumberOfNat
  rw [if_pos h]

/-- C10 witness: the amended theorem applied at handle 42. -/
theorem claim_C10_witness : 42 < 2 ^ 53 ∧ ForeignInstance.getInstancePtr 42 = 42 :=
  ⟨by decide, claim_C10_lossless_below_2_pow_53 42 (by decide)⟩

theorem createNewArgs_handles_none {I : Type} (name : String) (func : Buf → CreateReply)
    (input : I) (enc : I → Buf) (dec : Buf → String) :
    ∀ c ∈ (createNewArgs name func input enc dec).2, c.handle = none := by
  intro c hc
  unfold createNewArgs at hc
  by_cases h1 : (func (enc input)).status ≠ 0
  · rw [if_pos h1] at hc
    simp only [List.mem_cons] at hc
    rcases hc with rfl | hc
    · rfl
    · by_cases h2 : (func (enc input)).status > 0
      · rw [if_pos h2] at hc
        simp only [List.mem_cons, List.not_mem_nil, or_false] at hc
        rcases hc with rfl
        rfl
      · rw [if_neg h2] at hc
        simp at hc
  · rw [if_neg h1] at hc
    simp only [List.mem_cons, List.not_mem_nil, or_false] at hc
    rcases hc with rfl
    rfl

/-- C2: every disposed pipeline-stage instance is claimed to raise
`ObjectDisposed` locally, before any boundary call.  The embedded
code confirms this for `Normalizer.normalize`,
`PreTokenizer.preTokenize`, `Tokenizer.decode` and
`Tokenizer.encode` (error raised, empty call log), but refutes it
for `PipelineString.getSplits`: with the handle already zeroed the
source still crosses the boundary (first logged call is
`get_splits` with handle 0) and whatever it raises is not
`ObjectDisposed`. -/
theorem claim_C2_disposed_guards :
    (∀ (psPtr : Nat) (func : Nat → Buf → NativeReply) (enc : NormalizeParams → Buf)
        (dec : Buf → String),
        Normalizer.normalize 0 psPtr func enc dec = (Except.error (.objectDisposed ""), []))
  ∧ (∀ (psPtr : Nat) (func : Nat → Buf → NativeReply) (enc : PreTokenizeParams → Buf)
        (dec : Buf → String),
        PreTokenizer.preTokenize 0 psPtr func enc dec = (Except.error (.objectDisposed ""), []))
  ∧ (∀ (ids : List Nat) (skip : Bool) (func : Nat → Buf → NativeReply)
        (enc : DecodeParams → Buf) (dec : Buf → String) (decR : Buf → DecodeResult),
        Tokenizer.decode 0 ids skip func enc dec decR = (Except.error (.objectDisposed ""), []))
  ∧ (∀ (x : String) (a : Bool) (i2 : Option String) (b1 b2 b3 b4 b5 b6 b7 : Bool)
        (func : Nat → Buf → NativeReply) (enc : EncodeParams → Buf)
        (dec : Buf → String) (decR : Buf → EncodeResult),
        Tokenizer.encode 0 x a i2 b1 b2 b3 b4 b5 b6 b7 func enc dec decR =
          (Except.error (.objectDisposed ""), []))
  ∧ (∀ (orf : OffsetReferential) (oty : OffsetType) (inc : Bool)
        (func : Nat → Buf → NativeReply) (enc : SplitParams → Buf)
        (dec : Buf → String) (decR : Buf → SplitResult),
        (PipelineString.getSplits 0 orf oty inc func enc dec decR).2.head? =
          some ⟨"get_splits", some 0⟩
      ∧ exceptIsObjectDisposed
          (PipelineString.getSplits 0 orf oty inc func enc dec decR).1 = false) := by
  refine ⟨by intros; rfl, by intros; rfl, by intros; rfl, by intros; rfl, ?_⟩
  intro orf oty inc func enc dec decR
  constructor
  · simp [PipelineString.getSplits, methodArgsResult]
  · have h := methodArgsResult_fst "get_splits" func 0
      (⟨orf, oty, inc⟩ : SplitParams) enc dec decR
    simp only [PipelineString.getSplits, h, Except.map]
    simp [exceptIsObjectDisposed, throwErrors_isObjectDisposed_false]

/-- C4: a `Sequence` whose construction fails partway (a disposed
element, or native wrapper creation failure) makes no child-freeing
boundary call — every logged call carries no instance handle — and
every still-live child can afterwards be released exactly once
(its dispose emits exactly one free call and zeroes it), for both
the Normalizer and the PreTokenizer sequence classes. -/
theorem claim_C4_failed_construction_frees_nothing :
    ∀ (label createName : String) (ptrs : List Nat) (func : Buf → CreateReply)
      (enc : SequenceMsg → Buf) (dec : Buf → String),
      exceptIsOk (sequenceConstruct label createName ptrs func enc dec).1 = false →
        (∀ c ∈ (sequenceConstruct label createName ptrs func enc dec).2, c.handle = none)
      ∧ (∀ p ∈ ptrs, p ≠ 0 →
            foreignDispose normalizerFreeName p = ⟨none, 0, [⟨normalizerFreeName, some p⟩]⟩
          ∧ foreignDispose preTokenizerFreeName p =
              ⟨none, 0, [⟨preTokenizerFreeName, some p⟩]⟩) := by
  intro label createName ptrs func enc dec _h
  constructor
  · intro c hc
    unfold sequenceConstruct at hc
    cases hs : sequenceAddresses label ptrs with
    | error e => rw [hs] at hc; simp at hc
    | ok addrs => rw [hs] at hc; exact createNewArgs_handles_none _ _ _ _ _ c hc
  · intro p _hp hpne
    have h1 : dylibLookup normalizerFreeName = some normalizerFreeName := by decide
    have h2 : dylibLookup preTokenizerFreeName = some preTokenizerFreeName := by decide
    constructor <;> simp [foreignDispose, hpne, h1, h2]

/-- C4 witness: the theorem applied to a construction that fails at
index 1 (the second child is disposed); the first child remains
releasable exactly once. -/
theorem claim_C4_witness :
    exceptIsOk (sequenceConstruct "normalizer" "new_normalizer_wrapper" [5, 0]
        testCreateOk testEncode testDetails).1 = false
  ∧ foreignDispose normalizerFreeName 5 = ⟨none, 0, [⟨normalizerFreeName, some 5⟩]⟩ :=
  ⟨by decide,
   ((claim_C4_failed_construction_frees_nothing "normalizer" "new_normalizer_wrapper"
      [5, 0] testCreateOk testEncode testDetails (by decide)).2 5 (by decide) (by decide)).1⟩

/-- C5 counterexample: the claim says an invalid split configuration
(empty `Delimiter` character, or a `Metaspace` replacement that is
not exactly one character) fails with `PreTokenizationError` at
construction time.  Evaluating the embedded constructors: a
two-character replacement does not fail at all (the native wrapper
is created), and the empty delimiter raises a plain `Error`, not
`PreTokenizationError`. -/
theorem claim_C5_counterexample :
    (metaspaceConstruct "ab" .FIRST true testCreateOk testEncode testDetails).1 =
      Except.ok 7
  ∧ (delimiterConstruct "" testCreateOk testEncode testDetails).1 =
      Except.error (.genericError "delimiterChar must have a length of 1")
  ∧ exceptIsPreTokenizationError
      (delimiterConstruct "" testCreateOk testEncode testDetails).1 = false :=
  ⟨rfl, rfl, rfl⟩

/-- C5 (amended): the empty-string cases do fail at construction
time, before any boundary call, but with a plain `Error` (message
"... must have a length of 1"); a replacement/delimiter of length
other than one does not fail — it is silently truncated to its
first character in the constructed message. -/
theorem claim_C5_construction_guard :
    ∀ (s : String) (scheme : PrependScheme) (sp : Bool) (func : Buf → CreateReply)
      (encM : MetaspaceMsg → Buf) (encD : DelimiterMsg → Buf) (dec : Buf → String),
      (s.length = 0 →
          metaspaceConstruct s scheme sp func encM dec =
            (Except.error (.genericError "replacementChar must have a length of 1"), [])
        ∧ delimiterConstruct s func encD dec =
            (Except.error (.genericError "delimiterChar must have a length of 1"), []))
    ∧ (s.length ≠ 0 →
          metaspaceMsg s scheme sp = Except.ok ⟨s.take 1, scheme, sp⟩
        ∧ delimiterMsg s = Except.ok ⟨s.take 1⟩) := by
  intro s scheme sp func encM encD dec
  constructor
  · intro h
    constructor <;>
      simp [metaspaceConstruct, metaspaceMsg, delimiterConstruct, delimiterMsg, h]
  · intro h
    constructor <;> simp [metaspaceMsg, delimiterMsg, h]

/-- C5 witness: the amended theorem applied at the empty string and
at the two-character string "ab". -/
theorem claim_C5_witness :
    ("" : String).length = 0
  ∧ delimiterConstruct "" testCreateOk testEncode testDetails =
      (Except.error (.genericError "delimiterChar must have a length of 1"), [])
  ∧ ("ab" : String).length ≠ 0
  ∧ metaspaceMsg "ab" .FIRST true = Except.ok ⟨"a", .FIRST, true⟩ := by
  refine ⟨by decide, ((claim_C5_construction_guard "" .FIRST true testCreateOk
      testEncode testEncode testDetails).1 (by decide)).2, by decide, ?_⟩
  have h := ((claim_C5_construction_guard "ab" .FIRST true testCreateOk
      testEncode testEncode testDetails).2 (by decide)).1
  rw [h, show ("ab" : String).take 1 = "a" from by decide]

/-- C8 counterexample: for the `Tokenizer` class the claim fails —
the first dispose raises (`TypeError`, since `dylib.free_tokenizer`
is not an exported symbol) and so does every later dispose. -/
theorem claim_C8_counterexample :
    (foreignDispose tokenizerFreeName 42).err ≠ none
  ∧ (foreignDispose tokenizerFreeName (foreignDispose tokenizerFreeName 42).newPtr).err ≠
      none := by
  decide

/-- C8 (amended): for the classes whose free symbol exists
(Normalizer, PreTokenizer, PipelineString, including sequences of
them), disposal never raises, a second disposal makes no boundary
call, and the first disposal frees each live node exactly once
(children first).  For `Tokenizer` both the first and any later
dispose raise a `TypeError` and never call a free function. -/
theorem claim_C8_second_dispose_is_noop :
    (∀ fre : String,
        (fre = normalizerFreeName ∨ fre = preTokenizerFreeName ∨
          fre = pipelineStringFreeName) →
        ∀ t : PipeTree,
          (PipeTree.dispose fre t).1 = none
        ∧ PipeTree.dispose fre (PipeTree.dispose fre t).2.1 =
            (none, (PipeTree.dispose fre t).2.1, [])
        ∧ (PipeTree.dispose fre t).2.2 =
            (PipeTree.livePtrs t).map fun p => ⟨fre, some p⟩)
  ∧ (∀ p : Nat, p ≠ 0 →
        foreignDispose tokenizerFreeName p =
          ⟨some (.typeError "dylib.free_tokenizer is not a function"), p, []⟩) := by
  constructor
  · intro fre hfre t
    have hl : dylibLookup fre = some fre := by
      rcases hfre with rfl | rfl | rfl <;> decide
    have hs := PipeTree.dispose_spec fre hl t
    refine ⟨by rw [hs], ?_, by rw [hs]⟩
    rw [hs]
    exact PipeTree.dispose_zeroed fre t
  · intro p hp
    have hl : dylibLookup tokenizerFreeName = none := by decide
    have hmsg : "dylib." ++ tokenizerFreeName ++ " is not a function" =
        "dylib.free_tokenizer is not a function" := by decide
    unfold foreignDispose
    rw [if_neg hp, hl]
    simp [hmsg]

/-- C8 witness: the amended theorem applied to a sequence owning one
live child, and to a `Tokenizer` with handle 42. -/
theorem claim_C8_witness :
    (normalizerFreeName = normalizerFreeName ∨ normalizerFreeName = preTokenizerFreeName ∨
      normalizerFreeName = pipelineStringFreeName)
  ∧ (PipeTree.dispose normalizerFreeName (PipeTree.seq 9 [PipeTree.leaf 5])).1 = none
  ∧ (42 : Nat) ≠ 0
  ∧ foreignDispose tokenizerFreeName 42 =
      ⟨some (.typeError "dylib.free_tokenizer is not a function"), 42, []⟩ :=
  ⟨Or.inl rfl,
   (claim_C8_second_dispose_is_noop.1 normalizerFreeName (Or.inl rfl)
      (PipeTree.seq 9 [PipeTree.leaf 5])).1,
   by decide,
   claim_C8_second_dispose_is_noop.2 42 (by decide)⟩

/-- C9: a nonzero status outside the enumerated `CallStatus` values
raises a generic `Error` whose message carries the numeric code (and
the decoded detail string when the status is positive); every mapped
detail-carrying status raises its mapped class carrying the decoded
detail string. -/
theorem claim_C9_unknown_codes_surface :
    (∀ (s : Int) (b : Buf) (d : Buf → String), s ≠ 0 → callStatusFromJSON s = none →
        throwErrors s b d =
          .genericError (if s > 0 then
              "Unknown error occurred, code: " ++ toString s ++ ", details: " ++ d b
            else "Unknown error occurred, code: " ++ toString s))
  ∧ (∀ (b : Buf) (d : Buf → String),
        throwErrors 1 b d = .invalidArguments ("INVALID_ARGUMENTS_DETAILS: " ++ d b)
      ∧ throwErrors 2 b d = .invalidPointer (d b)
      ∧ throwErrors 3 b d = .normalizationError (d b)
      ∧ throwErrors 4 b d = .preTokenizationError (d b)
      ∧ throwErrors 5 b d = .tokenizerBuildError (d b)
      ∧ throwErrors 6 b d = .tokenizerTrainingError (d b)
      ∧ throwErrors 7 b d = .tokenizerSaveError (d b)
      ∧ throwErrors 8 b d = .tokenizerLoadFileError (d b)
      ∧ throwErrors 9 b d = .tokenizerEncodingError (d b)
      ∧ throwErrors 10 b d = .tokenizerDecodingError (d b)) := by
  constructor
  · intro s b d _hs hmap
    unfold throwErrors
    rw [hmap]
    by_cases h : s > 0 <;> simp [h]
  · intro b d
    exact ⟨rfl, rfl, rfl, rfl, rfl, rfl, rfl, rfl, rfl, rfl⟩

/-- C9 witness: the theorem applied at the unmapped positive status
999 with detail string "boom". -/
theorem claim_C9_witness :
    (999 : Int) ≠ 0 ∧ callStatusFromJSON 999 = none
  ∧ throwErrors 999 [] (fun _ => "boom") =
      .genericError "Unknown error occurred, code: 999, details: boom" := by
  refine ⟨by decide, by decide, ?_⟩
  have h := claim_C9_unknown_codes_surface.1 999 [] (fun _ => "boom") (by decide) (by decide)
  rw [h, if_pos (by decide : (999 : Int) > 0)]
  decide
